import Mathlib

/-!
Verification development for the Multi-Agent-Email repository.

The Python sources under `multi_agent_email/` are shallowly embedded here.
HTTP/JSON plumbing (the `requests` calls to the OpenAI and Tavily endpoints,
`response.json()`, extraction of `choices[0].message.content`, and
`json.loads` of that content) is the external provider boundary: each network
attempt of an agent is modelled as one `Attempt` value supplied by an
environment function `Nat → Attempt _`, where the index is the retry attempt
number.  Everything after that boundary (retry loops, fallback values, parsed
dictionaries, routing, state updates) is translated directly from the source.

Python `dict.get` on a possibly-missing key is modelled with `Option`
fields (`none` = key absent / `None`), and Python truthiness of strings,
lists and options is made explicit at each use site.

Python `float` confidence values (`0.9`, `0.4`, threshold `0.65`) are
modelled as `Nat` counts of hundredths (`90`, `40`, `65`).  The code only
ever compares these constants with each other, and the ordering of their
IEEE-754 approximations agrees with the ordering of the decimal values,
so no float-specific behaviour is lost by this exact encoding.
-/

/-- Outcome of one HTTP attempt against a provider, as seen by the agent
code: `reqError` is a `requests.exceptions.RequestException` (connection
error, timeout, non-2xx status), `exn` is any other exception raised while
performing or decoding the call, and `ok` is a successfully decoded
response body. -/
inductive Attempt (α : Type) where
  | reqError (msg : String)
  | exn (msg : String)
  | ok (val : α)
deriving DecidableEq

/-- Result of the post-call parsing done by `draft_email` / `review_context`
on a successful HTTP response: extracting `choices[0].message.content` and
JSON-decoding it either raises (`malformed`, carrying the exception text)
or yields a parsed dictionary. -/
inductive ParseOutcome (α : Type) where
  | malformed (msg : String)
  | parsed (val : α)
deriving DecidableEq

/-- Whether `p` is a prefix of `s`, on character lists (kernel-computable
counterpart of `String.startsWith`). -/
def listIsPrefix (p s : List Char) : Bool :=
  match p, s with
  | [], _ => true
  | _ :: _, [] => false
  | c :: cs, d :: ds => c = d && listIsPrefix cs ds

/-- Whether `p` occurs as a contiguous sublist of `s`. -/
def listContainsSub (s p : List Char) : Bool :=
  match s with
  | [] => p.isEmpty
  | _ :: rest => listIsPrefix p s || listContainsSub rest p

/-- Python's `sub in s` substring test. -/
def containsSubstr (s sub : String) : Bool :=
  listContainsSub s.data sub.data

/-- Python's `s.startswith(pre)`. -/
def strStartsWith (s pre : String) : Bool :=
  listIsPrefix pre.data s.data

/-- Python truthiness of an `Optional[str]`: `None` and `""` are falsy. -/
def truthyStr (o : Option String) : Bool :=
  match o with
  | none => false
  | some s => s != ""

/-- Python truthiness of an `Optional[bool]`: `None` and `False` are falsy. -/
def truthyBool (o : Option Bool) : Bool :=
  o.getD false

/- ===================== models.py ===================== -/

/-- `models.EmailTask` (pydantic). `subject_hint` and `body_hint` are
`Optional[str]`. -/
structure EmailTask where
  session_id : String
  recipient : String
  subject_hint : Option String
  body_hint : Option String
  task_description : String
deriving DecidableEq

/-- `models.RetrievedContext`. -/
structure RetrievedContext where
  snippets : List String
  confidence : Nat
deriving DecidableEq

/-- `models.DraftEmail`. -/
structure DraftEmail where
  subject : String
  body : String
  sources : List String
  trace_id : Option String
deriving DecidableEq

/-- `models.SafetyReport`. -/
structure SafetyReport where
  approved : Bool
  issues : List String
  redacted_body : String
deriving DecidableEq

/-- `models.FinalEmail`. -/
structure FinalEmail where
  recipient : String
  subject : String
  body : String
  trace_id : Option String
deriving DecidableEq

/- ===================== agents/intent.py ===================== -/

/-- The JSON dictionary produced by parsing the classifier response
(`json.loads(json_text)` in `IntentClassifierAgent.classify_intent`), and
also the shape of its hard-coded fallback dictionaries.  Fields are
`Option` because a parsed response need not contain every key. -/
structure IntentDict where
  intent_label : Option String
  urgency_level : Option String
  needs_external_search : Option Bool
deriving DecidableEq

/-- Fallback returned by `classify_intent` when every API attempt raises a
`RequestException` (intent.py lines 120-124). -/
def intentErrorFallbackApi : IntentDict :=
  { intent_label := some "Error_Fallback_API"
    urgency_level := some "High"
    needs_external_search := some false }

/-- Fallback returned by `classify_intent` when response handling raises a
non-request exception (intent.py lines 128-132). -/
def intentErrorParsing : IntentDict :=
  { intent_label := some "Error_Parsing"
    urgency_level := some "High"
    needs_external_search := some false }

/-- The retry loop of `IntentClassifierAgent.classify_intent`
(`for attempt in range(max_retries)` with `max_retries = 3`): a successful
attempt returns its parsed dictionary; a non-request exception returns the
parsing fallback immediately; a `RequestException` retries until the last
attempt, after which the API fallback is returned.  `i` is the current
attempt index, the `Nat` argument the number of attempts remaining. -/
def classifyGo (attempts : Nat → Attempt IntentDict) (i : Nat) :
    Nat → IntentDict
  | 0 => intentErrorFallbackApi
  | remaining + 1 =>
    match attempts i with
    | .ok d => d
    | .exn _ => intentErrorParsing
    | .reqError _ =>
      if remaining = 0 then intentErrorFallbackApi
      else classifyGo attempts (i + 1) remaining

/-- `IntentClassifierAgent.classify_intent` with the HTTP/JSON plumbing
abstracted into the per-attempt outcomes.  The prompt and payload built
from `task` only flow into the external call, whose outcome `attempts`
already describes, so `task` does not affect the result here. -/
def classify_intent (_task : EmailTask)
    (attempts : Nat → Attempt IntentDict) : IntentDict :=
  classifyGo attempts 0 3




/- ===================== agents/retriever.py ===================== -/

/-- `retriever.MOCK_KNOWLEDGE_BASE` together with the
`MOCK_KNOWLEDGE_BASE.get(intent_label, MOCK_KNOWLEDGE_BASE["General_Inquiry"])`
lookup performed in `ChromaVectorStore.similarity_search`. -/
def MOCK_KNOWLEDGE_BASE (label : String) : List String :=
  if label = "Shipping_Delay" then
    ["data/knowledge/faq_carrier_escalation.txt",
     "data/knowledge/template_delay_apology.txt",
     "data/knowledge/policy_compensation_limits.txt"]
  else if label = "Refund_Request" then
    ["data/knowledge/policy_compensation_limits.txt",
     "data/knowledge/transcript_billing_dispute.txt",
     "data/knowledge/template_return_confirmation.txt"]
  else if label = "GDPR_Request" then
    ["data/knowledge/faq_gdpr_request.txt",
     "data/knowledge/template_dpo_acknowledgement.txt"]
  else if label = "Loyalty_Program" then
    ["data/knowledge/faq_loyalty_status.txt",
     "data/knowledge/doc_plus_benefits_2024.txt",
     "data/knowledge/transcript_loyalty_inquiry.txt"]
  else if label = "Incorrect_Item" then
    ["data/knowledge/faq_incorrect_item.txt"]
  else if label = "Product_Inquiry" then
    ["data/knowledge/doc_care_denim.txt",
     "data/knowledge/doc_sneaker_fit.txt"]
  else
    ["data/knowledge/procedure_cancel_window.txt",
     "data/knowledge/doc_gift_card.txt"]

/-- The `content_map` literal inside `retriever.load_document_content`. -/
def content_map (filepath : String) : Option String :=
  if filepath = "data/knowledge/faq_carrier_escalation.txt" then
    some "**Policy:** Escalate if no update for 7 days (Hermes/DHL). Provide Template 3A."
  else if filepath = "data/knowledge/template_delay_apology.txt" then
    some "**Template 3A:** Apology for delay, includes €15 voucher."
  else if filepath = "data/knowledge/policy_compensation_limits.txt" then
    some "**Policy:** Max €15 for 10+ day delay. Max €25 for major error. Must be voucher, not cash."
  else if filepath = "data/knowledge/faq_gdpr_request.txt" then
    some "**Policy:** Route immediately to DPO team. Reply with Template 5B."
  else if filepath = "data/knowledge/doc_plus_benefits_2024.txt" then
    some "**Plus Benefits:** Free express shipping, early access, 100-day returns."
  else
    none

/-- `os.path.basename`: the final path component (for the plain
slash-separated paths used in the mock knowledge base). -/
def pathBasename (filepath : String) : String :=
  ⟨(filepath.data.reverse.takeWhile (fun c => c ≠ '/')).reverse⟩

/-- `retriever.load_document_content`. -/
def load_document_content (filepath : String) : String :=
  "--- DOCUMENT: " ++ pathBasename filepath ++ " ---\n" ++
    (content_map filepath).getD "Content not available for mock." ++ "\n"

/-- `RetrieverAgent.retrieve_context`.  The mocked
`ChromaVectorStore.similarity_search` (k = 4) is inlined: it selects the
knowledge-base files for the intent label and wraps each in
`load_document_content`.  The synthesis call
`_synthesize_context_with_llm(raw, task.subject_hint + " " + task.body_hint)`
evaluates its second argument before the call: since both hints are
`Optional[str]`, this raises `TypeError` whenever either hint is `None`
(first the left operand `subject_hint + " "`, then `... + body_hint`, in
Python evaluation order), which propagates out of `retrieve_context`;
this is the `Except.error` branch.  The synthesis call itself catches its
provider errors internally and its result — like `_determine_escalation`
— never reaches the returned
`RetrievedContext(snippets=..., confidence=...)`, so only the argument
evaluation is kept. -/
def retrieve_context (task : EmailTask) (intent_result : IntentDict) :
    Except String RetrievedContext :=
  let intent_label := intent_result.intent_label.getD "General_Inquiry"
  let snippets :=
    ((MOCK_KNOWLEDGE_BASE intent_label).take 4).map load_document_content
  let raw_retrieved_context := String.intercalate "\n\n" snippets
  let confidence_score : Nat :=
    if raw_retrieved_context.data.any (fun c => !c.isWhitespace)
    then 90 else 40
  match task.subject_hint with
  | none =>
    Except.error
      "TypeError: unsupported operand type(s) for +: \x27NoneType\x27 and \x27str\x27"
  | some sh =>
    match task.body_hint with
    | none =>
      Except.error
        "TypeError: can only concatenate str (not \x22NoneType\x22) to str"
    | some bh =>
      let _synthesis_query := sh ++ " " ++ bh
      Except.ok { snippets := snippets, confidence := confidence_score }

/- ===================== agents/external_tool.py ===================== -/

/-- One entry of the `results` list in a decoded Tavily response; fields
are `Option` mirroring `res.get("title", "No Title")` /
`res.get("content", "No Snippet")`. -/
structure TavilyResult where
  title : Option String
  content : Option String
deriving DecidableEq

/-- The retry loop of `ExternalToolAgent.fetch_external_info`
(`max_retries = 3`): a successful response summarizes the result list (or
reports that nothing was found), a processing exception returns an
error-tagged string immediately, and a `RequestException` retries until
the final attempt returns an error-tagged string. -/
def externalGo (attempts : Nat → Attempt (List TavilyResult)) (i : Nat) :
    Nat → String
  | 0 => ""
  | remaining + 1 =>
    match attempts i with
    | .ok results =>
      if results.isEmpty then "[External] Aucun article pertinent trouvé."
      else
        String.intercalate "\n"
          ("[External] Résumé des actualités pertinentes :" ::
            results.map (fun res =>
              "- " ++ res.title.getD "No Title" ++ ": " ++
                res.content.getD "No Snippet"))
    | .exn e =>
      "[External error] Erreur de traitement de la réponse (Tavily) : " ++ e
    | .reqError e =>
      if remaining = 0 then
        "[External error] Impossible d\x27appeler l\x27API externe (Tavily): " ++ e
      else externalGo attempts (i + 1) remaining

/-- `ExternalToolAgent.fetch_external_info`.  `tavily_api_key` is the
agent's key (empty when the `TAVILY_API_KEY` environment variable is
unset, which triggers the stub branch).  The query text is assembled from
the task and intent exactly as in the source, but only flows into the
external call, whose outcome `attempts` describes. -/
def fetch_external_info (tavily_api_key : String)
    (attempts : Nat → Attempt (List TavilyResult))
    (task : EmailTask) (intent_result : IntentDict) : String :=
  if tavily_api_key = "" then
    "[External stub] Synthèse de marché simulée pour : \x27" ++
      task.task_description ++ "\x27."
  else
    let intent_label := intent_result.intent_label.getD ""
    let _query_text :=
      if intent_label = "Pricing_Request" ∨ intent_label = "Product_Inquiry" then
        "Zalando news and market information for " ++
          (task.subject_hint.map toString).getD "None"
      else
        "Zalando public information about " ++ task.task_description
    externalGo attempts 0 3

/- ===================== agents/drafter.py & agents/safety.py ===================== -/

/-- The shared retry loop `_call_openai_api` of `DrafterAgent` and
`SafetyReviewerAgent` (`max_retries = 3`): returns the decoded response on
success, `None` immediately on a non-request exception, and `None` after
the final `RequestException`. -/
def callApiGo {α : Type} (attempts : Nat → Attempt α) (i : Nat) :
    Nat → Option α
  | 0 => none
  | remaining + 1 =>
    match attempts i with
    | .ok a => some a
    | .exn _ => none
    | .reqError _ =>
      if remaining = 0 then none
      else callApiGo attempts (i + 1) remaining

/-- `_call_openai_api` entry point. -/
def call_openai_api {α : Type} (attempts : Nat → Attempt α) : Option α :=
  callApiGo attempts 0 3

/-- The JSON dictionary parsed from the drafter LLM response
(`json.loads(json_text)` in `DrafterAgent.draft_email`); keys read with
`draft_data.get(..., default)`. -/
structure DraftDict where
  subject : Option String
  body : Option String
deriving DecidableEq

/-- `DrafterAgent.draft_email`.  The HTTP call plus in-call JSON decode is
`attempts` (its `ok` payload is the raw response); the subsequent
content-extraction / fence-stripping / `json.loads` step is the
`ParseOutcome`.  `traceId` stands for the `str(uuid4())` (or Langfuse)
trace id generated inside the method. -/
def draft_email (attempts : Nat → Attempt (ParseOutcome DraftDict))
    (traceId : String) (_task : EmailTask) (context : RetrievedContext)
    (external_info : Option String) (human_feedback : Option String) :
    DraftEmail :=
  match call_openai_api attempts with
  | none =>
    { subject := "[ERROR] Échec de la génération du brouillon"
      body := "Une erreur critique s\x27est produite lors de la génération du brouillon par le LLM. Veuillez réessayer plus tard."
      sources := ["system_error"]
      trace_id := none }
  | some (.malformed e) =>
    { subject := "[ERROR] Échec de l\x27analyse de la réponse du LLM"
      body := "Le LLM a retourné une réponse non analysable. Détails de l\x27erreur: " ++ e
      sources := ["system_error"]
      trace_id := none }
  | some (.parsed draft_data) =>
    let sources : List String :=
      (if !context.snippets.isEmpty then ["vector_db"] else []) ++
      (if truthyStr external_info ∧
          !(strStartsWith (external_info.getD "") "[External error]") then
        ["external_tool"] else []) ++
      (if truthyStr human_feedback then ["human_feedback"] else [])
    { subject := draft_data.subject.getD "Brouillon d\x27e-mail"
      body := draft_data.body.getD "Le contenu du corps du brouillon est manquant."
      sources := sources
      trace_id := some traceId }

/-- The JSON dictionary parsed from the safety-review LLM response in
`SafetyReviewerAgent.review_context`; `Option` fields model presence of
the keys checked by `all(k in review_data for k in [...])`. -/
structure ReviewDict where
  review_status : Option String
  hil_required : Option Bool
  review_notes : Option String
deriving DecidableEq

/-- `SafetyReviewerAgent.review_context`: API failure and unparseable or
schema-nonconforming responses each yield the hard-coded FAIL dictionary;
a response with all three keys present is returned as-is. -/
def review_context (attempts : Nat → Attempt (ParseOutcome ReviewDict))
    (_task_context : String) : ReviewDict :=
  match call_openai_api attempts with
  | none =>
    { review_status := some "FAIL"
      hil_required := some true
      review_notes := some "System Error: LLM safety review failed." }
  | some (.malformed e) =>
    { review_status := some "FAIL"
      hil_required := some true
      review_notes := some ("System Error: Failed to parse LLM output: " ++ e) }
  | some (.parsed review_data) =>
    if review_data.review_status.isSome ∧ review_data.hil_required.isSome ∧
        review_data.review_notes.isSome then
      review_data
    else
      { review_status := some "FAIL"
        hil_required := some true
        review_notes := some "System Error: Failed to parse LLM output: LLM response did not conform to the expected schema." }

/- ===================== config.py ===================== -/

/-- `Settings.confidence_threshold` when the `CONFIDENCE_THRESHOLD`
environment variable is unset: `float("0.65")`. -/
def confidence_threshold_default : Nat := 65





/- ============ graph/orchestrator.py : class Orchestrator (adapter) ============ -/

/-- The external collaborators one `Orchestrator` run talks to, gathered in
one record: the per-attempt HTTP outcomes of each agent, plus the
generated drafter trace id and the Tavily key from the environment.
`classifyRaises` models the `try/except` around `classify_intent` in
`create_draft` (it fires when `task` is not the dict-like/pydantic shape
the classifier expects). -/
structure Providers where
  classifyRaises : Bool
  intentAttempts : Nat → Attempt IntentDict
  externalAttempts : Nat → Attempt (List TavilyResult)
  draftAttempts : Nat → Attempt (ParseOutcome DraftDict)
  safetyAttempts : Nat → Attempt (ParseOutcome ReviewDict)
  draftTraceId : String
  tavilyApiKey : String

/-- The intent result used by `Orchestrator.create_draft`: the classifier
output, or the hard-coded `{"intent_label": "General_Inquiry",
"needs_external_search": False}` fallback when the classifier call raised
(orchestrator.py lines 371-374; note the fallback has no urgency key). -/
def adapterIntent (P : Providers) (task : EmailTask) : IntentDict :=
  if P.classifyRaises then
    { intent_label := some "General_Inquiry"
      urgency_level := none
      needs_external_search := some false }
  else classify_intent task P.intentAttempts

/-- `Orchestrator.create_draft` (orchestrator.py lines 369-400), returning
the tuple `(draft, safety_report, routing_decision, context,
external_info)`, or the exception text when a step raises.  Only the
classify call is wrapped in `try/except`; the retrieval step's
`TypeError` on a `None` hint propagates out of `create_draft` (the
`Except.error` branch), and everything after retrieval is total.  The
external step runs exactly when `intent_res.get("needs_external_search")`
is truthy; the `SafetyReport` is assembled from the review dictionary
with `approved = (review_status or "FAIL") == "PASS"`, the optional
non-empty review note, and `redacted_body = draft.body`. -/
def create_draft (P : Providers) (task : EmailTask) :
    Except String
      (DraftEmail × SafetyReport × String × RetrievedContext × Option String) :=
  let intent_res := adapterIntent P task
  match retrieve_context task intent_res with
  | Except.error e => Except.error e
  | Except.ok context =>
    let external_info : Option String :=
      if truthyBool intent_res.needs_external_search then
        some (fetch_external_info P.tavilyApiKey P.externalAttempts task intent_res)
      else none
    let draft :=
      draft_email P.draftAttempts P.draftTraceId task context external_info none
    let safety_result :=
      review_context P.safetyAttempts (String.intercalate "\n\n" context.snippets)
    let approved := (safety_result.review_status.getD "FAIL") == "PASS"
    let notes : List String :=
      if truthyStr safety_result.review_notes then
        [safety_result.review_notes.getD ""] else []
    let safety_report : SafetyReport :=
      { approved := approved, issues := notes, redacted_body := draft.body }
    let routing := if approved then "send" else "human_approval"
    Except.ok (draft, safety_report, routing, context, external_info)

/-- `Orchestrator.approve_and_send` (orchestrator.py lines 402-410): builds
the `FinalEmail` from the task recipient and the draft subject/body,
propagating the draft trace id; the `send` flag is accepted but sending is
only simulated. -/
def approve_and_send (task : EmailTask) (draft : DraftEmail)
    (_safety : SafetyReport) (_routing_decision : String)
    (_context : RetrievedContext) (_external_info : Option String)
    (_send : Bool) : FinalEmail :=
  { recipient := task.recipient
    subject := draft.subject
    body := draft.body
    trace_id := draft.trace_id }

/- ==== graph/orchestrator.py : EmailAutomationOrchestrator (LangGraph) ==== -/

/-- The `GraphState` TypedDict.  `human_approved` is not declared in the
TypedDict but is read by `_route_human_approval` via
`state.get("human_approved", False)`, so it is carried here as a `Bool`
(absent = `False`). -/
structure GraphState where
  user_query : String
  intent : String
  context_data : String
  draft : String
  safety_check_passed : Bool
  draft_version : Nat
  agent_history : List String
  citations : List String
  human_approved : Bool
deriving DecidableEq

/-- The agent objects the graph nodes call through `.run(...)`.  These
methods are not defined in the repository's agent classes (only
`classify_intent` / `retrieve_context` / `draft_email` / `review_context`
/ `fetch_external_info` are), so they are external collaborators here:
`intentRun` models `intent_classifier.run(query).get("intent", ...)`
(`none` = key absent), `retrieverRun` the `(context, citations)` pair from
`retriever.run`, and so on. -/
structure GraphAgents where
  intentRun : String → Option String
  retrieverRun : String → String × List String
  externalRun : String → String
  drafterRun : String → String
  safetyRun : String → Bool

/-- Node `classify_intent` (`_classify_intent`). -/
def nodeClassifyIntent (A : GraphAgents) (s : GraphState) : GraphState :=
  let intent := (A.intentRun s.user_query).getD "default_draft"
  { s with
    intent := intent
    agent_history := s.agent_history ++ ["Intent Classified: " ++ intent] }

/-- Node `retrieve_context` (`_retrieve_context`): the retriever's context
string is tested for Python truthiness. -/
def nodeRetrieveContext (A : GraphAgents) (s : GraphState) : GraphState :=
  let res := A.retrieverRun s.user_query
  if res.1 != "" then
    { s with
      context_data := res.1
      citations := res.2
      agent_history := s.agent_history ++ ["Context Retrieval: SUCCESS"] }
  else
    { s with
      context_data := "No relevant organizational context found."
      citations := []
      agent_history := s.agent_history ++ ["Context Retrieval: FAILURE"] }

/-- Node `external_search` (`_external_search`). -/
def nodeExternalSearch (A : GraphAgents) (s : GraphState) : GraphState :=
  if containsSubstr s.context_data "No relevant organizational context found"
      || (s.intent = "research_task" || s.intent = "external_email_draft") then
    { s with
      context_data := s.context_data ++ "\n\n--- External Search Results ---\n"
        ++ A.externalRun s.user_query
      agent_history := s.agent_history ++ ["External Search Performed."] }
  else
    { s with
      agent_history := s.agent_history ++
        ["External Search Skipped (Sufficient context found)."] }

/-- Node `generate_draft` (`_generate_draft`): bumps `draft_version` and
replaces the draft. -/
def nodeGenerateDraft (A : GraphAgents) (s : GraphState) : GraphState :=
  let version := s.draft_version + 1
  let prompt :=
    "User Query: " ++ s.user_query ++ "\n" ++
    "Intent: " ++ s.intent ++ "\n" ++
    "Context: " ++ s.context_data
  { s with
    draft_version := version
    draft := A.drafterRun prompt
    agent_history := s.agent_history ++
      ["Draft Version " ++ toString version ++ " Generated."] }

/-- Node `review_safety` (`_review_safety`). -/
def nodeReviewSafety (A : GraphAgents) (s : GraphState) : GraphState :=
  let is_safe := A.safetyRun s.draft
  { s with
    safety_check_passed := is_safe
    agent_history := s.agent_history ++
      ["Safety Check Passed: " ++ (if is_safe then "True" else "False")] }

/-- Node `send_and_log` (`_send_and_log`). -/
def nodeSendAndLog (s : GraphState) : GraphState :=
  { s with
    agent_history := s.agent_history ++
      ["Email successfully processed and simulated for sending.\n" ++
       "Final Draft:\n" ++ s.draft ++ "\n" ++
       "Sources: " ++ String.intercalate ", " s.citations] }

/-- Router 1 `_route_intent`: substring tests on the intent string. -/
def route_intent (s : GraphState) : String :=
  if containsSubstr s.intent "research" || containsSubstr s.intent "external"
  then "external_search"
  else if containsSubstr s.intent "retrieval" then "retrieve_context"
  else "generate_draft"

/-- Router 2 `_route_retrieval`. -/
def route_retrieval (s : GraphState) : String :=
  if containsSubstr s.context_data "No relevant organizational context found"
      && s.intent = "draft_email_with_retrieval"
  then "external_search"
  else "generate_draft"

/-- The revision note `_route_safety` appends to `context_data` when the
safety check failed. -/
def revisionNote : String :=
  "\n\n--- REVISION NOTE: Safety check failed. Please revise the draft to remove sensitive/unsafe content. ---"

/-- Router 3 `_route_safety`: on a passed check routes to human approval;
on a failed check mutates the state (appends the revision note to the
drafting context) and loops back to `generate_draft`.  The in-place
Python mutation is modelled by returning the updated state with the
route. -/
def route_safety (s : GraphState) : String × GraphState :=
  if s.safety_check_passed then ("human_approval", s)
  else ("generate_draft", { s with context_data := s.context_data ++ revisionNote })

/-- Router 4 `_route_human_approval`. -/
def route_human_approval (s : GraphState) : String :=
  if s.human_approved then "send_and_log" else "retrieve_context"

/-- One LangGraph superstep of the compiled workflow (`_build_graph`):
execute the node the run is at, then follow its (conditional) edge to the
next node.  Unconditional edges: `external_search → generate_draft`,
`generate_draft → review_safety`, `send_and_log → END`; `human_approval`
is the identity node.  `"__end__"` (and any unknown node) is absorbing. -/
def graphStep (A : GraphAgents) (p : String × GraphState) :
    String × GraphState :=
  if p.1 = "classify_intent" then
    let s := nodeClassifyIntent A p.2
    (route_intent s, s)
  else if p.1 = "retrieve_context" then
    let s := nodeRetrieveContext A p.2
    (route_retrieval s, s)
  else if p.1 = "external_search" then
    ("generate_draft", nodeExternalSearch A p.2)
  else if p.1 = "generate_draft" then
    ("review_safety", nodeGenerateDraft A p.2)
  else if p.1 = "review_safety" then
    route_safety (nodeReviewSafety A p.2)
  else if p.1 = "human_approval" then
    (route_human_approval p.2, p.2)
  else if p.1 = "send_and_log" then
    ("__end__", nodeSendAndLog p.2)
  else p

/-- Run `n` supersteps of the graph. -/
def graphRun (A : GraphAgents) : Nat → String × GraphState → String × GraphState
  | 0, p => p
  | n + 1, p => graphRun A n (graphStep A p)

/- ===================== Concrete fixtures ===================== -/

/-- A concrete inbound task. -/
def taskA : EmailTask :=
  { session_id := "ZAL-EMAIL-10293"
    recipient := "support@zalando.com"
    subject_hint := some "URGENT: Order ZL-99876 delayed"
    body_hint := some "My order has not moved in 7 days."
    task_description := "Customer inquiry about shipping delay." }

/-- A concrete inbound task with both optional hints absent (`null` in
the request body). -/
def taskNoHints : EmailTask :=
  { session_id := "ZAL-EMAIL-10294"
    recipient := "support@zalando.com"
    subject_hint := none
    body_hint := none
    task_description := "Customer inquiry with no hints." }

/-- Graph collaborators whose safety review always fails and whose intent
answer routes straight to drafting. -/
def cexAgents : GraphAgents :=
  { intentRun := fun _ => none
    retrieverRun := fun _ => ("", [])
    externalRun := fun _ => ""
    drafterRun := fun _ => "d"
    safetyRun := fun _ => false }

/-- A concrete initial graph state (as built by `run_orchestrator`, with
`human_approved` left at its `state.get` default `False`). -/
def cexInit : GraphState :=
  { user_query := "q"
    intent := ""
    context_data := ""
    draft := ""
    safety_check_passed := false
    draft_version := 0
    agent_history := ["User Input: q"]
    citations := []
    human_approved := false }

/-- Adapter collaborators: every provider call succeeds; the classifier
reports `needs_external_search = True`, the safety review passes. -/
def providersPass : Providers :=
  { classifyRaises := false
    intentAttempts := fun _ =>
      .ok ⟨some "Product_Inquiry", some "Normal", some true⟩
    externalAttempts := fun _ => .ok [⟨some "T", some "C"⟩]
    draftAttempts := fun _ => .ok (.parsed ⟨some "S", some "B"⟩)
    safetyAttempts := fun _ => .ok (.parsed ⟨some "PASS", some false, some "ok"⟩)
    draftTraceId := "trace-1"
    tavilyApiKey := "tvly-key" }

/-- Adapter collaborators for which every provider call raises a
`RequestException` on every retry. -/
def providersDown : Providers :=
  { classifyRaises := false
    intentAttempts := fun _ => .reqError "timeout"
    externalAttempts := fun _ => .reqError "timeout"
    draftAttempts := fun _ => .reqError "timeout"
    safetyAttempts := fun _ => .reqError "timeout"
    draftTraceId := "trace-2"
    tavilyApiKey := "tvly-key" }

/- ===================== Helper lemmas on the adapter ===================== -/

/-- Inverting a successful retrieval: the hints were present and the
returned context is the snippets/confidence record. -/
theorem retrieve_context_ok_inv (task : EmailTask) (intent : IntentDict)
    (context : RetrievedContext)
    (h : retrieve_context task intent = Except.ok context) :
    context =
      { snippets := ((MOCK_KNOWLEDGE_BASE
          (intent.intent_label.getD "General_Inquiry")).take 4).map
            load_document_content
        confidence :=
          if (String.intercalate "\n\n"
              (((MOCK_KNOWLEDGE_BASE
                (intent.intent_label.getD "General_Inquiry")).take 4).map
                  load_document_content)).data.any (fun c => !c.isWhitespace)
          then 90 else 40 } := by
  unfold retrieve_context at h
  cases hsh : task.subject_hint with
  | none => rw [hsh] at h; exact Except.noConfusion h
  | some sh =>
    rw [hsh] at h
    cases hbh : task.body_hint with
    | none => rw [hbh] at h; exact Except.noConfusion h
    | some bh =>
      rw [hbh] at h
      exact (Except.ok.injEq _ _ ▸ h).symm

/-- A successfully retrieved context always has confidence 0.9 (the mock
knowledge base always yields non-blank documents). -/
theorem retrieve_context_ok_confidence (task : EmailTask)
    (intent : IntentDict) (context : RetrievedContext)
    (h : retrieve_context task intent = Except.ok context) :
    context.confidence = 90 := by
  rw [retrieve_context_ok_inv task intent context h]
  simp only [MOCK_KNOWLEDGE_BASE]
  split_ifs <;> first
    | rfl
    | (exfalso; rename_i hws; exact hws (by decide))

/- ===================== Claim C1 ===================== -/

/-- Claim C1: for every run of the adapter pipeline (`create_draft`
followed by `approve_and_send`, as invoked by the `/email/draft` route)
that completes its draft — i.e. `create_draft` returns a tuple rather
than propagating an exception — the `FinalEmail` has subject byte-equal
to the draft subject and body byte-equal to the safety report's
`redacted_body` (which `create_draft` populates with the draft body). -/
theorem C1_final_email_matches_draft_and_verdict (P : Providers)
    (task : EmailTask)
    (r : DraftEmail × SafetyReport × String × RetrievedContext × Option String)
    (h : create_draft P task = Except.ok r) :
    (approve_and_send task r.1 r.2.1 r.2.2.1 r.2.2.2.1 r.2.2.2.2
        false).subject = r.1.subject ∧
    (approve_and_send task r.1 r.2.1 r.2.2.1 r.2.2.2.1 r.2.2.2.2
        false).body = r.2.1.redacted_body := by
  cases hrc : retrieve_context task (adapterIntent P task) with
  | error e =>
    simp only [create_draft, hrc] at h
    exact Except.noConfusion h
  | ok context =>
    simp only [create_draft, hrc, Except.ok.injEq] at h
    subst h
    exact ⟨rfl, rfl⟩

/-- Witness for C1 at a concrete completed run. -/
theorem C1_witness :
    (create_draft providersPass taskA).map (fun r =>
      decide ((approve_and_send taskA r.1 r.2.1 r.2.2.1 r.2.2.2.1 r.2.2.2.2
          false).subject = r.1.subject) &&
      decide ((approve_and_send taskA r.1 r.2.1 r.2.2.1 r.2.2.2.1 r.2.2.2.2
          false).body = r.2.1.redacted_body)) = Except.ok true := by
  obtain ⟨r, hr⟩ : ∃ r, create_draft providersPass taskA = Except.ok r :=
    ⟨_, rfl⟩
  have h := C1_final_email_matches_draft_and_verdict providersPass taskA r hr
  rw [hr]
  simp only [Except.map, decide_eq_true h.1, decide_eq_true h.2,
    Bool.and_self]

/- ===================== Claim C5 ===================== -/

/-- Claim C5 counterexample: at `human_approval`, a rejection (no approval
signal, no feedback mechanism exists at all) routes the run back to
`retrieve_context`; it does not terminate, and no `error("rejected")`
state exists in the graph (the claim asserts a rejection with no further
action ends in `error("rejected")` with no send attempted). -/
theorem C5_counterexample :
    route_human_approval cexInit = "retrieve_context" ∧
    (graphStep cexAgents ("human_approval", cexInit)).1 = "retrieve_context" ∧
    "retrieve_context" ≠ "send_and_log" ∧
    "retrieve_context" ≠ "__end__" :=
  ⟨rfl, rfl, by decide, by decide⟩

/-- Claim C5 amended: at `human_approval`, an approval signal routes to
`send_and_log` and any rejection routes back to `retrieve_context`,
regardless of feedback; no terminal `error("rejected")` exists. -/
theorem C5_amended (A : GraphAgents) (s : GraphState) :
    route_human_approval s =
      (if s.human_approved then "send_and_log" else "retrieve_context") ∧
    graphStep A ("human_approval", s) = (route_human_approval s, s) :=
  ⟨rfl, rfl⟩

/- ===================== Claim C6 ===================== -/

/-- Claim C6 counterexample: when every classify attempt raises a
`RequestException` (e.g. times out), the fallback label is
`"Error_Fallback_API"`, not the claimed `"Error_Fallback"`, and the
urgency is `"High"`, not the claimed `"high"`; moreover a run whose task
carries no hints does NOT proceed to a terminal state without raising:
the retriever's `task.subject_hint + " " + task.body_hint` raises
`TypeError`, which propagates out of `create_draft`. -/
theorem C6_counterexample :
    (classify_intent taskA (fun _ => .reqError "timeout")).intent_label ≠
      some "Error_Fallback" ∧
    (classify_intent taskA (fun _ => .reqError "timeout")).urgency_level ≠
      some "high" ∧
    create_draft providersDown taskNoHints =
      Except.error
        "TypeError: unsupported operand type(s) for +: \x27NoneType\x27 and \x27str\x27" := by
  refine ⟨by decide, by decide, rfl⟩

/-- Claim C6 amended: when the classify provider call fails on every
retry, `classify_intent` does not raise and returns the fallback with
label `"Error_Fallback_API"`, urgency `"High"` and
`needs_external_search = False`.  An adapter run whose task has both
subject and body hints present still proceeds through draft and review
to a routing decision (`"send"` or `"human_approval"`) without raising;
but a run whose task lacks either hint raises `TypeError` in the
retrieval step (retriever.py line 229) regardless of the classify
fallback, so such runs do not reach a terminal state. -/
theorem C6_amended :
    (∀ (task : EmailTask) (m : Nat → String),
      classify_intent task (fun i => .reqError (m i)) = intentErrorFallbackApi) ∧
    (∀ (P : Providers) (task : EmailTask) (sh bh : String),
      task.subject_hint = some sh → task.body_hint = some bh →
      ∃ r, create_draft P task = Except.ok r ∧
        (r.2.2.1 = "send" ∨ r.2.2.1 = "human_approval")) ∧
    (∀ (P : Providers) (task : EmailTask),
      task.subject_hint = none ∨ task.body_hint = none →
      ∃ e, create_draft P task = Except.error e) := by
  refine ⟨fun task m => rfl, ?_, ?_⟩
  · intro P task sh bh hsh hbh
    have hrc : retrieve_context task (adapterIntent P task) =
        Except.ok
          { snippets := ((MOCK_KNOWLEDGE_BASE
              ((adapterIntent P task).intent_label.getD
                "General_Inquiry")).take 4).map load_document_content
            confidence :=
              if (String.intercalate "\n\n"
                  (((MOCK_KNOWLEDGE_BASE
                    ((adapterIntent P task).intent_label.getD
                      "General_Inquiry")).take 4).map
                      load_document_content)).data.any
                    (fun c => !c.isWhitespace)
              then 90 else 40 } := by
      unfold retrieve_context
      rw [hsh, hbh]
    have hok : ∃ r, create_draft P task = Except.ok r := by
      simp only [create_draft]
      rw [hrc]
      exact ⟨_, rfl⟩
    obtain ⟨r, hr⟩ := hok
    refine ⟨r, hr, ?_⟩
    simp only [create_draft, hrc, Except.ok.injEq] at hr
    subst hr
    exact ite_eq_or_eq _ _ _
  · intro P task h
    have hrc : ∃ e, retrieve_context task (adapterIntent P task) =
        Except.error e := by
      cases h with
      | inl h1 =>
        refine ⟨"TypeError: unsupported operand type(s) for +: \x27NoneType\x27 and \x27str\x27", ?_⟩
        unfold retrieve_context
        rw [h1]
      | inr h2 =>
        cases hsh : task.subject_hint with
        | none =>
          refine ⟨"TypeError: unsupported operand type(s) for +: \x27NoneType\x27 and \x27str\x27", ?_⟩
          unfold retrieve_context
          rw [hsh]
        | some sh =>
          refine ⟨"TypeError: can only concatenate str (not \x22NoneType\x22) to str", ?_⟩
          unfold retrieve_context
          rw [hsh, h2]
    obtain ⟨e, he⟩ := hrc
    refine ⟨e, ?_⟩
    simp only [create_draft]
    rw [he]

/-- Witness for the amended C6 at concrete runs: one task with both hints
(classify timing out on every retry), one task with no hints. -/
theorem C6_witness :
    (∃ r, create_draft providersDown taskA = Except.ok r ∧
      (r.2.2.1 = "send" ∨ r.2.2.1 = "human_approval")) ∧
    (∃ e, create_draft providersDown taskNoHints = Except.error e) :=
  ⟨C6_amended.2.1 providersDown taskA _ _ rfl rfl,
   C6_amended.2.2 providersDown taskNoHints (Or.inl rfl)⟩

/- ===================== Claim C2 ===================== -/

/-- With a safety reviewer that always fails, two supersteps from
`generate_draft` land back at `generate_draft` with the revision counter
incremented by one. -/
theorem graph_redraft_two_step (A : GraphAgents)
    (hA : ∀ d, A.safetyRun d = false) (s : GraphState) :
    (graphStep A (graphStep A ("generate_draft", s))).1 = "generate_draft" ∧
    (graphStep A (graphStep A ("generate_draft", s))).2.draft_version =
      s.draft_version + 1 := by
  have h1 : graphStep A ("generate_draft", s) =
      ("review_safety", nodeGenerateDraft A s) := rfl
  rw [h1]
  have h2 : graphStep A ("review_safety", nodeGenerateDraft A s) =
      route_safety (nodeReviewSafety A (nodeGenerateDraft A s)) := rfl
  rw [h2]
  simp [route_safety, nodeReviewSafety, nodeGenerateDraft, hA]

/-- Claim C2 counterexample: with a safety reviewer that always fails
(and an intent routed straight to drafting), after `3 * 3 + 5 = 14`
supersteps the run is still at `review_safety` with 7 redrafts already
performed — it has neither terminated within the claimed bound nor
entered any `error("max_revisions_exceeded")` state (no such state exists
in the graph). -/
theorem C2_counterexample :
    (graphRun cexAgents 14 ("classify_intent", cexInit)).1 = "review_safety" ∧
    (graphRun cexAgents 14 ("classify_intent", cexInit)).2.draft_version = 7 ∧
    "review_safety" ≠ "__end__" :=
  ⟨rfl, rfl, by decide⟩

/-- Claim C2 amended: the revision counter (`draft_version`) does
increment on each re-entry of the draft state, but no maximum number of
redraft attempts is enforced: when the safety check always fails the run
alternates between `generate_draft` and `review_safety` forever — after
`2 * k` supersteps from `generate_draft` it is again at `generate_draft`
with the counter increased by `k`, for every `k`, so no bound of the form
`3 * max_redraft_attempts + 5` holds and no
`error("max_revisions_exceeded")` termination occurs. -/
theorem C2_amended (A : GraphAgents) (hA : ∀ d, A.safetyRun d = false)
    (s : GraphState) (k : Nat) :
    (graphRun A (2 * k) ("generate_draft", s)).1 = "generate_draft" ∧
    (graphRun A (2 * k) ("generate_draft", s)).2.draft_version =
      s.draft_version + k := by
  induction k generalizing s with
  | zero => exact ⟨rfl, rfl⟩
  | succ k ih =>
    have hrw : 2 * (k + 1) = 2 * k + 2 := by ring
    rw [hrw]
    have hq : graphRun A (2 * k + 2) ("generate_draft", s) =
        graphRun A (2 * k) (graphStep A (graphStep A ("generate_draft", s))) :=
      rfl
    rw [hq]
    obtain ⟨h1, h2⟩ := graph_redraft_two_step A hA s
    have hpair : graphStep A (graphStep A ("generate_draft", s)) =
        ("generate_draft",
          (graphStep A (graphStep A ("generate_draft", s))).2) := by
      exact Prod.ext h1 rfl
    rw [hpair]
    refine ⟨(ih _).1, ?_⟩
    rw [(ih _).2, h2]
    ring

/-- Witness for the amended C2 at a concrete instance: the always-failing
reviewer `cexAgents`, three loop iterations. -/
theorem C2_amended_witness :
    (∀ d, cexAgents.safetyRun d = false) ∧
    (graphRun cexAgents (2 * 3) ("generate_draft", cexInit)).1 =
      "generate_draft" ∧
    (graphRun cexAgents (2 * 3) ("generate_draft", cexInit)).2.draft_version =
      cexInit.draft_version + 3 :=
  ⟨fun _ => rfl, C2_amended cexAgents (fun _ => rfl) cexInit 3⟩

/- ===================== Claim C4 ===================== -/

/-- Claim C4 counterexample: in the adapter pipeline, a completed run
whose safety review approves (`review_status = "PASS"`) gets routing
decision `"send"` — the run routes directly to send, not to the human
gate as the claim asserts (and a non-approved run gets
`"human_approval"`, not a redraft). -/
theorem C4_counterexample :
    (create_draft providersPass taskA).map (fun r => r.2.1.approved) =
      Except.ok true ∧
    (create_draft providersPass taskA).map (fun r => r.2.2.1) =
      Except.ok "send" ∧
    "send" ≠ "human_approval" :=
  ⟨rfl, rfl, by decide⟩

/-- Claim C4 amended: in the graph orchestrator, `_route_safety` routes a
failed check back to `generate_draft` with the revision note appended to
the drafting context and a passed check to `human_approval`; in the
adapter `Orchestrator.create_draft`, however, for every run that
completes, approval routes directly to `"send"` and non-approval to
`"human_approval"` (no revision note, no redraft). -/
theorem C4_amended :
    (∀ s : GraphState,
      (route_safety s).1 =
        (if s.safety_check_passed then "human_approval" else "generate_draft") ∧
      (route_safety s).2.context_data =
        (if s.safety_check_passed then s.context_data
         else s.context_data ++ revisionNote)) ∧
    (∀ (P : Providers) (task : EmailTask)
        (r : DraftEmail × SafetyReport × String × RetrievedContext ×
          Option String),
      create_draft P task = Except.ok r →
      r.2.2.1 = (if r.2.1.approved then "send" else "human_approval")) := by
  constructor
  · intro s
    by_cases h : s.safety_check_passed <;> simp [route_safety, h]
  · intro P task r h
    cases hrc : retrieve_context task (adapterIntent P task) with
    | error e =>
      simp only [create_draft, hrc] at h
      exact Except.noConfusion h
    | ok context =>
      simp only [create_draft, hrc, Except.ok.injEq] at h
      subst h
      rfl

/-- Witness for the amended C4 at a concrete completed run. -/
theorem C4_amended_witness :
    (create_draft providersPass taskA).map (fun r =>
      r.2.2.1 == (if r.2.1.approved then "send" else "human_approval")) =
      Except.ok true := by
  obtain ⟨r, hr⟩ : ∃ r, create_draft providersPass taskA = Except.ok r :=
    ⟨_, rfl⟩
  have h := C4_amended.2 providersPass taskA r hr
  rw [hr]
  simp only [Except.map, h, beq_self_eq_true]

/- ===================== Claim C3 ===================== -/

/-- Claim C3 counterexample: a run in which retrieval returns confidence
0.9 (≥ the default threshold 0.65) and the intent has
`needs_external_search = True` still invokes the external-fetch step
(`external_info` is populated), refuting "the external-fetch step is
never invoked when confidence ≥ threshold". -/
theorem C3_counterexample :
    (adapterIntent providersPass taskA).needs_external_search = some true ∧
    (create_draft providersPass taskA).map (fun r => r.2.2.2.1.confidence) =
      Except.ok 90 ∧
    (90 : Nat) ≥ confidence_threshold_default ∧
    (create_draft providersPass taskA).map (fun r => (r.2.2.2.2).isSome) =
      Except.ok true :=
  ⟨rfl, rfl, by decide, rfl⟩

/-- Claim C3 amended: in `Orchestrator.create_draft` the external-fetch
step is invoked exactly when `intent_res.get("needs_external_search")` is
truthy; for every run that completes, the retrieval confidence is never
consulted (the configured threshold plays no role), and with the mock
knowledge base it is in fact always 0.9. -/
theorem C3_amended (P : Providers) (task : EmailTask)
    (r : DraftEmail × SafetyReport × String × RetrievedContext × Option String)
    (h : create_draft P task = Except.ok r) :
    (r.2.2.2.2).isSome =
      truthyBool (adapterIntent P task).needs_external_search ∧
    r.2.2.2.1.confidence = 90 := by
  cases hrc : retrieve_context task (adapterIntent P task) with
  | error e =>
    simp only [create_draft, hrc] at h
    exact Except.noConfusion h
  | ok context =>
    simp only [create_draft, hrc, Except.ok.injEq] at h
    subst h
    constructor
    · by_cases hx :
        truthyBool (adapterIntent P task).needs_external_search = true <;>
        simp [hx]
    · exact retrieve_context_ok_confidence task (adapterIntent P task)
        context hrc

/-- Witness for the amended C3 at a concrete completed run. -/
theorem C3_amended_witness :
    (create_draft providersPass taskA).map (fun r => (r.2.2.2.2).isSome) =
      Except.ok
        (truthyBool (adapterIntent providersPass taskA).needs_external_search) ∧
    (create_draft providersPass taskA).map (fun r => r.2.2.2.1.confidence) =
      Except.ok 90 := by
  obtain ⟨r, hr⟩ : ∃ r, create_draft providersPass taskA = Except.ok r :=
    ⟨_, rfl⟩
  have h := C3_amended providersPass taskA r hr
  rw [hr]
  constructor
  · simp only [Except.map, h.1]
  · simp only [Except.map, h.2]

/- ===================== Claim C7 ===================== -/

/-- Claim C7: whenever the drafter's provider call fails after all retries
or its response cannot be parsed (i.e. `_call_openai_api` yields no
parseable draft), `draft_email` returns (never raises) a draft whose
subject is prefixed `"[ERROR]"` and whose sources are exactly
`["system_error"]`; and the graph routes `generate_draft` to
`review_safety` unconditionally, so the error draft still goes through
safety review. -/
theorem C7_error_draft_still_reviewed
    (attempts : Nat → Attempt (ParseOutcome DraftDict)) (traceId : String)
    (task : EmailTask) (context : RetrievedContext)
    (external_info human_feedback : Option String)
    (h : ∀ d, call_openai_api attempts ≠ some (ParseOutcome.parsed d)) :
    strStartsWith
      (draft_email attempts traceId task context external_info
        human_feedback).subject "[ERROR]" = true ∧
    (draft_email attempts traceId task context external_info
      human_feedback).sources = ["system_error"] ∧
    (∀ (A : GraphAgents) (s : GraphState),
      (graphStep A ("generate_draft", s)).1 = "review_safety") := by
  cases hc : call_openai_api attempts with
  | none =>
    refine ⟨?_, ?_, fun A s => rfl⟩
    · simp only [draft_email, hc]
      decide
    · simp [draft_email, hc]
  | some po =>
    cases po with
    | malformed e =>
      refine ⟨?_, ?_, fun A s => rfl⟩
      · simp only [draft_email, hc]
        decide
      · simp [draft_email, hc]
    | parsed d => exact absurd hc (h d)

/-- Witness for C7: the drafter provider times out on every retry. -/
theorem C7_witness :
    (∀ d, call_openai_api (fun _ =>
        (Attempt.reqError "timeout" : Attempt (ParseOutcome DraftDict))) ≠
      some (ParseOutcome.parsed d)) ∧
    strStartsWith
      (draft_email (fun _ => .reqError "timeout") "t" taskA ⟨[], 40⟩
        none none).subject "[ERROR]" = true ∧
    (draft_email (fun _ => .reqError "timeout") "t" taskA ⟨[], 40⟩
      none none).sources = ["system_error"] := by
  have hno : ∀ d, call_openai_api (fun _ =>
      (Attempt.reqError "timeout" : Attempt (ParseOutcome DraftDict))) ≠
      some (ParseOutcome.parsed d) := by
    intro d hd
    exact Option.noConfusion hd
  have := C7_error_draft_still_reviewed (fun _ => .reqError "timeout") "t"
    taskA ⟨[], 40⟩ none none hno
  exact ⟨hno, this.1, this.2.1⟩

/- ===================== Claim C8 ===================== -/

/-- Claim C8: when the safety reviewer's provider call fails, or its
response is unparseable or does not carry all three schema keys, the
failure is converted locally into a fail-closed verdict:
`review_context` returns `review_status = "FAIL"`, and the
`SafetyReport` assembled by `create_draft` from it has
`approved = false`.  No exception escapes (`review_context` is a total
function of the attempt outcomes). -/
theorem C8_review_fails_closed :
    (∀ (attempts : Nat → Attempt (ParseOutcome ReviewDict)) (c : String),
      (∀ d, call_openai_api attempts = some (ParseOutcome.parsed d) →
        ¬(d.review_status.isSome ∧ d.hil_required.isSome ∧
            d.review_notes.isSome)) →
      (review_context attempts c).review_status = some "FAIL") ∧
    (∀ (P : Providers) (task : EmailTask)
        (r : DraftEmail × SafetyReport × String × RetrievedContext ×
          Option String),
      create_draft P task = Except.ok r →
      (∀ d, call_openai_api P.safetyAttempts = some (ParseOutcome.parsed d) →
        ¬(d.review_status.isSome ∧ d.hil_required.isSome ∧
            d.review_notes.isSome)) →
      r.2.1.approved = false) := by
  have part1 : ∀ (attempts : Nat → Attempt (ParseOutcome ReviewDict))
      (c : String),
      (∀ d, call_openai_api attempts = some (ParseOutcome.parsed d) →
        ¬(d.review_status.isSome ∧ d.hil_required.isSome ∧
            d.review_notes.isSome)) →
      (review_context attempts c).review_status = some "FAIL" := by
    intro attempts c h
    cases hc : call_openai_api attempts with
    | none => simp [review_context, hc]
    | some po =>
      cases po with
      | malformed e => simp [review_context, hc]
      | parsed d => simp [review_context, hc, h d hc]
  refine ⟨part1, ?_⟩
  intro P task r hok h
  cases hrc : retrieve_context task (adapterIntent P task) with
  | error e =>
    simp only [create_draft, hrc] at hok
    exact Except.noConfusion hok
  | ok context =>
    simp only [create_draft, hrc, Except.ok.injEq] at hok
    subst hok
    have hfail := part1 P.safetyAttempts
      (String.intercalate "\n\n" context.snippets) h
    simp [hfail]

/-- Witness for C8: the safety provider raises a non-request exception. -/
theorem C8_witness :
    (review_context (fun _ => Attempt.exn "boom") "ctx").review_status =
      some "FAIL" ∧
    (create_draft providersDown taskA).map (fun r => r.2.1.approved) =
      Except.ok false := by
  have hvac1 : ∀ d, call_openai_api (fun _ =>
      (Attempt.exn "boom" : Attempt (ParseOutcome ReviewDict))) =
      some (ParseOutcome.parsed d) →
      ¬(d.review_status.isSome ∧ d.hil_required.isSome ∧
          d.review_notes.isSome) := by
    intro d hd
    exact Option.noConfusion hd
  have hvac2 : ∀ d, call_openai_api providersDown.safetyAttempts =
      some (ParseOutcome.parsed d) →
      ¬(d.review_status.isSome ∧ d.hil_required.isSome ∧
          d.review_notes.isSome) := by
    intro d hd
    exact Option.noConfusion hd
  obtain ⟨r, hr⟩ : ∃ r, create_draft providersDown taskA = Except.ok r :=
    ⟨_, rfl⟩
  refine ⟨C8_review_fails_closed.1 _ "ctx" hvac1, ?_⟩
  rw [hr]
  simp only [Except.map,
    C8_review_fails_closed.2 providersDown taskA r hr hvac2]

/- ===================== Claim C9 ===================== -/

/-- A prefix of `a` is a prefix of `a ++ b`. -/
theorem listIsPrefix_append (p a b : List Char)
    (h : listIsPrefix p a = true) : listIsPrefix p (a ++ b) = true := by
  induction p generalizing a with
  | nil => rfl
  | cons c cs ih =>
    cases a with
    | nil => exact absurd h (by simp [listIsPrefix])
    | cons d ds =>
      simp only [listIsPrefix, List.cons_append, Bool.and_eq_true] at h ⊢
      exact ⟨h.1, ih ds h.2⟩

/-- `startswith` is stable under appending a suffix. -/
theorem strStartsWith_append (s t pre : String)
    (h : strStartsWith s pre = true) : strStartsWith (s ++ t) pre = true := by
  have hd : (s ++ t).data = s.data ++ t.data := rfl
  unfold strStartsWith at h ⊢
  rw [hd]
  exact listIsPrefix_append _ _ _ h

/-- If no attempt of the external-tool retry loop succeeds, the loop
returns a string prefixed by `"[External error]"`. -/
theorem externalGo_no_ok (attempts : Nat → Attempt (List TavilyResult))
    (h : ∀ i res, attempts i ≠ Attempt.ok res) :
    ∀ (r : Nat), 1 ≤ r → ∀ (i : Nat),
      strStartsWith (externalGo attempts i r) "[External error]" = true := by
  intro r
  induction r with
  | zero => intro h0; exact absurd h0 (by omega)
  | succ r ih =>
    intro _ i
    cases ha : attempts i with
    | ok res => exact absurd ha (h i res)
    | exn e =>
      simp only [externalGo, ha]
      exact strStartsWith_append _ _ _ (by decide)
    | reqError e =>
      simp only [externalGo, ha]
      by_cases hr : r = 0
      · rw [if_pos hr]
        exact strStartsWith_append _ _ _ (by decide)
      · rw [if_neg hr]
        exact ih (by omega) (i + 1)

/-- Claim C9: the external step never throws — it is a total function of
the attempt outcomes — and on provider error (no attempt succeeds, the
non-stub path) it returns an error-tagged string prefixed
`"[External error]"`; afterwards the graph routes `external_search`
unconditionally to `generate_draft`. -/
theorem C9_external_error_tagged_then_draft :
    (∀ (key : String) (attempts : Nat → Attempt (List TavilyResult))
        (task : EmailTask) (intent : IntentDict),
      key ≠ "" → (∀ i res, attempts i ≠ Attempt.ok res) →
      strStartsWith (fetch_external_info key attempts task intent)
        "[External error]" = true) ∧
    (∀ (A : GraphAgents) (s : GraphState),
      (graphStep A ("external_search", s)).1 = "generate_draft") := by
  refine ⟨?_, fun A s => rfl⟩
  intro key attempts task intent hk h
  unfold fetch_external_info
  rw [if_neg hk]
  exact externalGo_no_ok attempts h 3 (by omega) 0

/-- Witness for C9: a present Tavily key with a provider that times out on
every attempt. -/
theorem C9_witness :
    ("tvly-key" ≠ "") ∧
    (∀ i res, (fun _ : Nat => (Attempt.reqError "timeout" :
        Attempt (List TavilyResult))) i ≠ Attempt.ok res) ∧
    strStartsWith
      (fetch_external_info "tvly-key" (fun _ => .reqError "timeout") taskA
        intentErrorFallbackApi) "[External error]" = true := by
  refine ⟨by decide, ?_, ?_⟩
  · intro i res hr
    exact Attempt.noConfusion hr
  · exact C9_external_error_tagged_then_draft.1 "tvly-key"
      (fun _ => .reqError "timeout") taskA intentErrorFallbackApi (by decide)
      (fun i res hr => Attempt.noConfusion hr)

/- ===================== Claim C10 ===================== -/

/-- Claim C10: on a successfully parsed drafter response, the draft's
provenance list contains `"vector_db"` iff the retrieved snippets are
non-empty, `"external_tool"` iff the external info is a non-empty string
not starting with `"[External error]"`, `"human_feedback"` iff
human feedback is a non-empty value, and never contains
`"system_error"`; and when no parseable response exists the sources are
exactly `["system_error"]`. -/
theorem C10_sources_provenance
    (attempts : Nat → Attempt (ParseOutcome DraftDict)) (traceId : String)
    (task : EmailTask) (context : RetrievedContext)
    (ext hf : Option String) :
    (∀ d, call_openai_api attempts = some (ParseOutcome.parsed d) →
      (("vector_db" ∈
          (draft_email attempts traceId task context ext hf).sources) ↔
        context.snippets ≠ []) ∧
      (("external_tool" ∈
          (draft_email attempts traceId task context ext hf).sources) ↔
        (truthyStr ext = true ∧
          strStartsWith (ext.getD "") "[External error]" = false)) ∧
      (("human_feedback" ∈
          (draft_email attempts traceId task context ext hf).sources) ↔
        truthyStr hf = true) ∧
      ("system_error" ∉
        (draft_email attempts traceId task context ext hf).sources)) ∧
    ((∀ d, call_openai_api attempts ≠ some (ParseOutcome.parsed d)) →
      (draft_email attempts traceId task context ext hf).sources =
        ["system_error"]) := by
  constructor
  · intro d hd
    simp only [draft_email, hd]
    by_cases h1 : context.snippets.isEmpty = true <;>
      by_cases h2 : (truthyStr ext = true ∧
        (!strStartsWith (ext.getD "") "[External error]") = true) <;>
      by_cases h3 : truthyStr hf = true <;>
      simp_all [List.isEmpty_iff, Bool.not_eq_true]
  · intro h
    cases hc : call_openai_api attempts with
    | none => simp [draft_email, hc]
    | some po =>
      cases po with
      | malformed e => simp [draft_email, hc]
      | parsed d => exact absurd hc (h d)

/-- Witness for C10 at a concrete parsed response with snippets, external
info and human feedback all present. -/
theorem C10_witness :
    ("vector_db" ∈
        (draft_email (fun _ => .ok (.parsed ⟨some "S", some "B"⟩)) "t" taskA
          ⟨["snip"], 90⟩ (some "info") (some "fb")).sources ↔
      (⟨["snip"], 90⟩ : RetrievedContext).snippets ≠ []) ∧
    ("external_tool" ∈
        (draft_email (fun _ => .ok (.parsed ⟨some "S", some "B"⟩)) "t" taskA
          ⟨["snip"], 90⟩ (some "info") (some "fb")).sources ↔
      (truthyStr (some "info") = true ∧
        strStartsWith ((some "info").getD "") "[External error]" = false)) ∧
    ("human_feedback" ∈
        (draft_email (fun _ => .ok (.parsed ⟨some "S", some "B"⟩)) "t" taskA
          ⟨["snip"], 90⟩ (some "info") (some "fb")).sources ↔
      truthyStr (some "fb") = true) ∧
    ("system_error" ∉
      (draft_email (fun _ => .ok (.parsed ⟨some "S", some "B"⟩)) "t" taskA
        ⟨["snip"], 90⟩ (some "info") (some "fb")).sources) :=
  (C10_sources_provenance (fun _ => .ok (.parsed ⟨some "S", some "B"⟩)) "t"
    taskA ⟨["snip"], 90⟩ (some "info") (some "fb")).1
    ⟨some "S", some "B"⟩ rfl
